import Mathlib

/-!
Verification of the NASA-SPACEAPP satellite collision-analysis core
(`src/PYfinal.py`): the maneuver-time estimator, the risk classifier, the
conjunction screener and the propulsion-aware ISL decision engine, embedded
shallowly with rational arithmetic in place of Python floats.
-/

namespace SpaceApp

/-! ### Maneuver-time estimator (`SatelliteAnalyzer.calculate_maneuver_time`,
`src/PYfinal.py` lines 635-777)

The Python function returns a dict; validation failures and the infeasible
configuration return dicts with an `error` key.  We embed the result as an
`Except`: the error constructors carry the same information the source dicts
do (the fixed Spanish message strings of the three validation errors are
represented by the constructor names; the infeasible case keeps its
diagnostic fields `reason`, `recommendation`, `v_rel`, `n_k`, `deficit`).
The purely presentational outputs (alternative scenarios, sensitivity
analysis, LEO context, operational recommendation lists) are advisory text
not referenced by any verified property and are omitted from the record. -/

/-- Error results of `calculate_maneuver_time` (lines 655-677). -/
inductive ManeuverError where
  /-- line 656: `'La velocidad relativa debe ser positiva'` -/
  | invalidVelocity
  /-- line 659: `'La distancia de seguridad debe ser positiva'` -/
  | invalidSafetyDistance
  /-- line 662: `'La incertidumbre posicional no puede ser negativa'` -/
  | invalidUncertainty
  /-- lines 670-677: the infeasible-configuration dict with its diagnostic fields. -/
  | infeasibleConfiguration (reason recommendation : String) (v_rel n_k deficit : ℚ)
  deriving DecidableEq

/-- The `tiempo_maniobra` sub-dict (lines 753-758). -/
structure TiempoManiobra where
  segundos : ℚ
  minutos : ℚ
  horas : ℚ
  dias : ℚ
  deriving DecidableEq

/-- The successful result of `calculate_maneuver_time` (lines 745-774):
input parameters, lead times, criticality evaluation and the calculation
components. -/
structure ManeuverResult where
  v_rel_ms : ℚ
  R_req_m : ℚ
  sigma_0_m : ℚ
  k_ms : ℚ
  factor_confianza : ℚ
  tiempo : TiempoManiobra
  criticidad : String
  recomendacion : String
  numerador : ℚ
  denominador : ℚ
  margen_seguridad : ℚ
  deriving DecidableEq

/-- Embedding of `calculate_maneuver_time(v_rel, R_req, sigma_0, k, n)`
(lines 653-774).  Each `if` mirrors the source's validation order; the
success branch computes `t = numerador / denominador` and the derived units
and criticality bucket exactly as lines 680-702 do. -/
def calculate_maneuver_time (v_rel R_req sigma_0 k n : ℚ) :
    Except ManeuverError ManeuverResult :=
  if v_rel ≤ 0 then .error .invalidVelocity
  else if R_req ≤ 0 then .error .invalidSafetyDistance
  else if sigma_0 < 0 then .error .invalidUncertainty
  else
    let numerador := R_req + n * sigma_0
    let denominador := v_rel - n * k
    if denominador ≤ 0 then
      .error (.infeasibleConfiguration
        "La velocidad relativa es insuficiente comparada con el crecimiento de incertidumbre"
        "Reducir el factor de confianza (n) o mejorar la precisión orbital (reducir k)"
        v_rel (n * k) |denominador|)
    else
      let t_maneuver_seconds := numerador / denominador
      let t_minutes := t_maneuver_seconds / 60
      let t_hours := t_minutes / 60
      let t_days := t_hours / 24
      -- lines 687-702 assign `criticidad` and `recomendacion` together in each
      -- branch; they are rendered as two chains over the same conditions.
      let criticidad :=
        if t_hours < 1 then "🔴 CRÍTICO"
        else if t_hours < 6 then "🟠 ALTO"
        else if t_hours < 24 then "🟡 MEDIO"
        else if t_days < 7 then "🟢 BAJO"
        else "🔵 MÍNIMO"
      let recomendacion :=
        if t_hours < 1 then "Maniobra inmediata requerida"
        else if t_hours < 6 then "Preparar maniobra en las próximas horas"
        else if t_hours < 24 then "Planificar maniobra para hoy"
        else if t_days < 7 then "Maniobra puede planificarse con anticipación"
        else "Tiempo suficiente para análisis detallado"
      .ok {
        v_rel_ms := v_rel
        R_req_m := R_req
        sigma_0_m := sigma_0
        k_ms := k
        factor_confianza := n
        tiempo := ⟨t_maneuver_seconds, t_minutes, t_hours, t_days⟩
        criticidad := criticidad
        recomendacion := recomendacion
        numerador := numerador
        denominador := denominador
        margen_seguridad := denominador - n * k }

/-- `true` exactly on the infeasible-configuration error result. -/
def isInfeasibleError : Except ManeuverError ManeuverResult → Bool
  | .error (.infeasibleConfiguration _ _ _ _ _) => true
  | _ => false

/-! ### Risk classifier (`analyze_collision_risk`, lines 614-623)

The source reduces the encounter list to a risk level from the minimum of
the encounters' `distance_km` values: `BAJO` when the list is empty,
otherwise `CRÍTICO` below 1 km, `ALTO` below 5 km, else `MEDIO`.  Python's
`min` over a nonempty list is `List.min?`. -/

/-- Embedding of the risk-statistics reduction (lines 614-623) over the
encounters' `distance_km` values. -/
def risk_level_of_distances (dists : List ℚ) : String :=
  match dists.min? with
  | none => "BAJO"
  | some min_distance =>
    if min_distance < 1 then "CRÍTICO"
    else if min_distance < 5 then "ALTO"
    else "MEDIO"

/-! ### Theorems for the estimator and the classifier -/

/-- C1: on inputs passing validation (`v_rel > 0`, `R_req > 0`, `sigma_0 ≥ 0`)
with positive denominator `v_rel - n·k`, the estimator succeeds with lead time
exactly `t = (R_req + n·sigma_0) / (v_rel - n·k)` seconds, minutes/hours/days
derived by dividing by 60, 60 and 24, and the criticality bucket determined
from `t` (`<1h` CRÍTICO, `<6h` ALTO, `<24h` MEDIO, `<7d` BAJO, else MÍNIMO);
the witness instantiates the spec's concrete scenario
`calculate_maneuver_time 8200 1000 120 0.001 3`, whose lead time is
`t = 1360/8199.997 = 1360000/8199997` seconds with criticality CRÍTICO. -/
theorem maneuver_lead_time_spec (v_rel R_req sigma_0 k n : ℚ)
    (hv : 0 < v_rel) (hR : 0 < R_req) (hs : 0 ≤ sigma_0)
    (hd : 0 < v_rel - n * k) :
    ∃ r, calculate_maneuver_time v_rel R_req sigma_0 k n = .ok r ∧
      r.tiempo.segundos = (R_req + n * sigma_0) / (v_rel - n * k) ∧
      r.tiempo.minutos = r.tiempo.segundos / 60 ∧
      r.tiempo.horas = r.tiempo.minutos / 60 ∧
      r.tiempo.dias = r.tiempo.horas / 24 ∧
      r.criticidad =
        (if r.tiempo.horas < 1 then "🔴 CRÍTICO"
         else if r.tiempo.horas < 6 then "🟠 ALTO"
         else if r.tiempo.horas < 24 then "🟡 MEDIO"
         else if r.tiempo.dias < 7 then "🟢 BAJO"
         else "🔵 MÍNIMO") := by
  have h1 : ¬ v_rel ≤ 0 := not_le.mpr hv
  have h2 : ¬ R_req ≤ 0 := not_le.mpr hR
  have h3 : ¬ sigma_0 < 0 := not_lt.mpr hs
  have h4 : ¬ v_rel - n * k ≤ 0 := not_le.mpr hd
  refine ⟨{ v_rel_ms := v_rel, R_req_m := R_req, sigma_0_m := sigma_0, k_ms := k,
            factor_confianza := n,
            tiempo := ⟨(R_req + n * sigma_0) / (v_rel - n * k),
                       (R_req + n * sigma_0) / (v_rel - n * k) / 60,
                       (R_req + n * sigma_0) / (v_rel - n * k) / 60 / 60,
                       (R_req + n * sigma_0) / (v_rel - n * k) / 60 / 60 / 24⟩,
            criticidad :=
              if (R_req + n * sigma_0) / (v_rel - n * k) / 60 / 60 < 1 then "🔴 CRÍTICO"
              else if (R_req + n * sigma_0) / (v_rel - n * k) / 60 / 60 < 6 then "🟠 ALTO"
              else if (R_req + n * sigma_0) / (v_rel - n * k) / 60 / 60 < 24 then "🟡 MEDIO"
              else if (R_req + n * sigma_0) / (v_rel - n * k) / 60 / 60 / 24 < 7 then "🟢 BAJO"
              else "🔵 MÍNIMO",
            recomendacion :=
              if (R_req + n * sigma_0) / (v_rel - n * k) / 60 / 60 < 1 then
                "Maniobra inmediata requerida"
              else if (R_req + n * sigma_0) / (v_rel - n * k) / 60 / 60 < 6 then
                "Preparar maniobra en las próximas horas"
              else if (R_req + n * sigma_0) / (v_rel - n * k) / 60 / 60 < 24 then
                "Planificar maniobra para hoy"
              else if (R_req + n * sigma_0) / (v_rel - n * k) / 60 / 60 / 24 < 7 then
                "Maniobra puede planificarse con anticipación"
              else "Tiempo suficiente para análisis detallado",
            numerador := R_req + n * sigma_0,
            denominador := v_rel - n * k,
            margen_seguridad := v_rel - n * k - n * k }, ?_, rfl, rfl, rfl, rfl, rfl⟩
  simp only [calculate_maneuver_time, if_neg h1, if_neg h2, if_neg h3, if_neg h4]

/-- Witness for C1 at the spec's concrete scenario
`(v_rel, R_req, sigma_0, k, n) = (8200, 1000, 120, 0.001, 3)`:
`t = 1360000/8199997` seconds (≈ 0.16586 s), bucket CRÍTICO. -/
theorem maneuver_lead_time_spec_witness :
    (0 : ℚ) < 8200 ∧ (0 : ℚ) < 1000 ∧ (0 : ℚ) ≤ 120 ∧
      (0 : ℚ) < 8200 - 3 * (1/1000) ∧
    ∃ r, calculate_maneuver_time 8200 1000 120 (1/1000) 3 = .ok r ∧
      r.tiempo.segundos = 1360000 / 8199997 ∧
      r.criticidad = "🔴 CRÍTICO" := by
  refine ⟨by norm_num, by norm_num, by norm_num, by norm_num, ?_⟩
  obtain ⟨r, hok, hseg, hmin, hhor, hdia, hcrit⟩ :=
    maneuver_lead_time_spec 8200 1000 120 (1/1000) 3
      (by norm_num) (by norm_num) (by norm_num) (by norm_num)
  refine ⟨r, hok, ?_, ?_⟩
  · rw [hseg]; norm_num
  · rw [hcrit, if_pos]
    rw [hhor, hmin, hseg]; norm_num

/-- C2: risk classification is a pure function of the minimum distance: empty
event set → BAJO; otherwise with `m` the minimum distance, `m < 1` → CRÍTICO,
`1 ≤ m < 5` → ALTO, `m ≥ 5` → MEDIO; classifying the same distances twice
yields the same level. -/
theorem risk_classification_rule :
    risk_level_of_distances [] = "BAJO" ∧
    (∀ (ds : List ℚ) (m : ℚ), ds.min? = some m →
      ((m < 1 → risk_level_of_distances ds = "CRÍTICO") ∧
       (1 ≤ m → m < 5 → risk_level_of_distances ds = "ALTO") ∧
       (5 ≤ m → risk_level_of_distances ds = "MEDIO"))) ∧
    (∀ ds : List ℚ, risk_level_of_distances ds = risk_level_of_distances ds) := by
  refine ⟨rfl, ?_, fun _ => rfl⟩
  intro ds m hm
  refine ⟨fun h1 => ?_, fun h1 h5 => ?_, fun h5 => ?_⟩ <;>
    simp only [risk_level_of_distances, hm]
  · rw [if_pos h1]
  · rw [if_neg (not_lt.mpr h1), if_pos h5]
  · rw [if_neg (not_lt.mpr (by linarith)), if_neg (not_lt.mpr h5)]

/-- Witness for C2 on the concrete event distance sets `[3/2]` (minimum
`3/2`, level ALTO) and `[]`. -/
theorem risk_classification_rule_witness :
    ([ (3:ℚ)/2 ].min? = some (3/2)) ∧
    risk_level_of_distances [3/2] = "ALTO" ∧
    risk_level_of_distances [] = "BAJO" := by
  have h := risk_classification_rule
  refine ⟨rfl, ?_, h.1⟩
  exact (h.2.1 [3/2] (3/2) rfl).2.1 (by norm_num) (by norm_num)

/-- Counterexample to C3 as stated: at the quintuple
`(v_rel, R_req, sigma_0, k, n) = (1, -1, 0, 1, 2)` we have `v_rel ≤ n·k`,
yet the estimator fails with the safety-distance validation error (the
validations run first), not with the infeasible-configuration error. -/
theorem infeasible_iff_claim_counterexample :
    calculate_maneuver_time 1 (-1) 0 1 2 = .error .invalidSafetyDistance ∧
    isInfeasibleError (calculate_maneuver_time 1 (-1) 0 1 2) = false ∧
    (1 : ℚ) ≤ 2 * 1 := by
  refine ⟨?_, ?_, by norm_num⟩ <;> norm_num [calculate_maneuver_time, isInfeasibleError]

/-- C3 amended: for inputs that pass the earlier validations (`v_rel > 0`,
`R_req > 0`, `sigma_0 ≥ 0`), the estimator fails with the
infeasible-configuration error — carrying the deficit `|v_rel - n·k|` and the
remediation hint — if and only if `v_rel ≤ n·k`. -/
theorem infeasible_iff_validated (v_rel R_req sigma_0 k n : ℚ)
    (hv : 0 < v_rel) (hR : 0 < R_req) (hs : 0 ≤ sigma_0) :
    calculate_maneuver_time v_rel R_req sigma_0 k n =
      .error (.infeasibleConfiguration
        "La velocidad relativa es insuficiente comparada con el crecimiento de incertidumbre"
        "Reducir el factor de confianza (n) o mejorar la precisión orbital (reducir k)"
        v_rel (n * k) |v_rel - n * k|) ↔
    v_rel ≤ n * k := by
  have h1 : ¬ v_rel ≤ 0 := not_le.mpr hv
  have h2 : ¬ R_req ≤ 0 := not_le.mpr hR
  have h3 : ¬ sigma_0 < 0 := not_lt.mpr hs
  by_cases hd : v_rel - n * k ≤ 0
  · simp only [calculate_maneuver_time, if_neg h1, if_neg h2, if_neg h3, if_pos hd]
    constructor
    · intro _; linarith
    · intro _; trivial
  · simp only [calculate_maneuver_time, if_neg h1, if_neg h2, if_neg h3, if_neg hd]
    constructor
    · intro h; exact absurd h (by simp)
    · intro h; exact absurd h (by push_neg at hd; linarith)

/-- Witness for C3's amended claim at `(1, 1, 0, 1, 2)`: the configuration is
infeasible (`1 ≤ 2·1`) and the estimator reports it with deficit `1`. -/
theorem infeasible_iff_validated_witness :
    (0 : ℚ) < 1 ∧ (0 : ℚ) < 1 ∧ (0 : ℚ) ≤ 0 ∧
    calculate_maneuver_time 1 1 0 1 2 =
      .error (.infeasibleConfiguration
        "La velocidad relativa es insuficiente comparada con el crecimiento de incertidumbre"
        "Reducir el factor de confianza (n) o mejorar la precisión orbital (reducir k)"
        1 (2 * 1) |(1 : ℚ) - 2 * 1|) :=
  ⟨by norm_num, by norm_num, le_refl 0,
    (infeasible_iff_validated 1 1 0 1 2 (by norm_num) (by norm_num)
      (le_refl 0)).mpr (by norm_num)⟩

/-! ### Conjunction screener (`analyze_collision_risk`, lines 557-633)

The propagator (`skyfield`'s `sat.at(t)`) is the external black box
`position_at(object, time)`; it is a parameter `pos : String → ℕ → Point`
giving the position (km) of a catalog object at the sample offset in hours
from `now` (line 593 samples `t = now + hours/24` days).  Distances are kept
squared: line 601's `distance_km = ‖pos1 − pos2‖` is only ever compared
(`< threshold_km`, `< 1`, `< 5`, `< 5`, `< 20`), and for the nonnegative
Euclidean norm `‖v‖ < c ↔ 0 < c ∧ ‖v‖² < c²`, so every comparison is
rendered exactly on `distSq` without leaving ℚ. -/

/-- Inertial position vector (km). -/
abbrev Point := ℚ × ℚ × ℚ

/-- Squared Euclidean distance between two position vectors
(`np.linalg.norm(p - q)` squared, line 601). -/
def distSq (p q : Point) : ℚ :=
  (p.1 - q.1) * (p.1 - q.1) + (p.2.1 - q.2.1) * (p.2.1 - q.2.1) +
    (p.2.2 - q.2.2) * (p.2.2 - q.2.2)

/-- `‖p − q‖ < θ` expressed on the squared distance `d2 = ‖p − q‖²`:
equivalent to line 605's `distance_km < threshold_km` for every `θ`. -/
def distLt (d2 θ : ℚ) : Bool := decide (0 < θ ∧ d2 < θ * θ)

/-- One entry of `close_encounters` (lines 606-612); `hours` is the sample
offset from `now`, `distSq` the squared `distance_km`. -/
structure Encuentro where
  hours : ℕ
  satellite2 : String
  distSq : ℚ
  satellite1_pos : Point
  satellite2_pos : Point
  deriving DecidableEq

/-- Python `range(0, stop, step)` for `step > 0`: the multiples of `step`
strictly below `stop`, in increasing order (line 592 uses
`range(0, days_ahead * 24, 6)`; `find_collision_cases` line 1345 uses step 2). -/
def pyRange (stop step : ℕ) : List ℕ :=
  (List.range ((stop + step - 1) / step)).map (fun i => i * step)

/-- The inner candidate loop at one time sample (lines 596-612): appends one
event per candidate whose distance to the target is below the threshold. -/
def innerLoop (pos : String → ℕ → Point) (sat1 : String) (θ : ℚ) (h : ℕ) :
    List String → List Encuentro
  | [] => []
  | c :: rest =>
    (if distLt (distSq (pos sat1 h) (pos c h)) θ then
      [⟨h, c, distSq (pos sat1 h) (pos c h), pos sat1 h, pos c h⟩]
    else []) ++ innerLoop pos sat1 θ h rest

/-- The outer time-sample loop (lines 592-612). -/
def screenLoop (pos : String → ℕ → Point) (sat1 : String) (cands : List String)
    (θ : ℚ) : List ℕ → List Encuentro
  | [] => []
  | h :: hs => innerLoop pos sat1 θ h cands ++ screenLoop pos sat1 cands θ hs

/-- The screening pass of `analyze_collision_risk` (lines 591-612),
parametrized over the step (fixed to 6 hours at line 592). -/
def screen (pos : String → ℕ → Point) (sat1 : String) (cands : List String)
    (θ : ℚ) (days_ahead step_hours : ℕ) : List Encuentro :=
  screenLoop pos sat1 cands θ (pyRange (days_ahead * 24) step_hours)

/-- The risk reduction (lines 614-623) applied to the screener's events:
the thresholds 1 km and 5 km on `distance_km` become 1 and 25 on the
squared distance. -/
def risk_level_of_encuentros (encs : List Encuentro) : String :=
  match (encs.map (fun e => e.distSq)).min? with
  | none => "BAJO"
  | some m =>
    if m < 1 then "CRÍTICO"
    else if m < 25 then "ALTO"
    else "MEDIO"

/-- The result dict of `analyze_collision_risk` (lines 625-633). -/
structure RiskResult where
  satellite : String
  analysis_period_days : ℕ
  threshold_km : ℚ
  close_encounters : List Encuentro
  risk_level : String
  total_encounters : ℕ
  satellites_analyzed : ℕ
  deriving DecidableEq

/-- Embedding of `analyze_collision_risk(satellite1_name, satellite2_name,
threshold_km, days_ahead)` (lines 557-633).  The catalog is the ordered list
of `self.satellites` keys; lines 577-587 pick the candidate set: the given
second object if present in the catalog (silently empty otherwise), or the
first 100 catalog entries minus the target. -/
def analyze_collision_risk (catalog : List String) (pos : String → ℕ → Point)
    (satellite1_name : String) (satellite2_name : Option String)
    (threshold_km : ℚ) (days_ahead : ℕ) : Except String RiskResult :=
  if satellite1_name ∉ catalog then
    .error ("Satélite " ++ satellite1_name ++ " no encontrado")
  else
    let satellites_to_check :=
      match satellite2_name with
      | some s2 => if s2 ∈ catalog then [s2] else []
      | none => (catalog.take 100).filter (fun nm => nm ≠ satellite1_name)
    let close_encounters :=
      screen pos satellite1_name satellites_to_check threshold_km days_ahead 6
    .ok { satellite := satellite1_name
          analysis_period_days := days_ahead
          threshold_km := threshold_km
          close_encounters := close_encounters
          risk_level := risk_level_of_encuentros close_encounters
          total_encounters := close_encounters.length
          satellites_analyzed := satellites_to_check.length }

/-! #### Screener lemmas -/

theorem lt_ceilDiv_iff {N s : ℕ} (hs : 0 < s) (i : ℕ) :
    i < (N + s - 1) / s ↔ i * s < N := by
  constructor
  · intro h
    have h2 : (i + 1) * s ≤ N + s - 1 := (Nat.le_div_iff_mul_le hs).mp h
    rw [Nat.succ_mul] at h2
    omega
  · intro h
    have h2 : (i + 1) * s ≤ N + s - 1 := by rw [Nat.succ_mul]; omega
    exact (Nat.le_div_iff_mul_le hs).mpr h2

theorem mem_pyRange {N s : ℕ} (hs : 0 < s) (h : ℕ) :
    h ∈ pyRange N s ↔ ∃ i, h = i * s ∧ h < N := by
  unfold pyRange
  simp only [List.mem_map, List.mem_range]
  constructor
  · rintro ⟨i, hi, rfl⟩
    exact ⟨i, rfl, (lt_ceilDiv_iff hs i).mp hi⟩
  · rintro ⟨i, rfl, hlt⟩
    exact ⟨i, (lt_ceilDiv_iff hs i).mpr hlt, rfl⟩

theorem pyRange_lt {N s h : ℕ} (hm : h ∈ pyRange N s) : h < N := by
  rcases Nat.eq_zero_or_pos s with hz | hs
  · subst hz
    simp [pyRange, Nat.div_zero] at hm
  · obtain ⟨i, rfl, hlt⟩ := (mem_pyRange hs h).mp hm
    exact hlt

theorem innerLoop_eq_filterMap (pos : String → ℕ → Point) (sat1 : String)
    (θ : ℚ) (h : ℕ) :
    ∀ cs : List String, innerLoop pos sat1 θ h cs =
      (cs.filter (fun c => distLt (distSq (pos sat1 h) (pos c h)) θ)).map
        (fun c => ⟨h, c, distSq (pos sat1 h) (pos c h), pos sat1 h, pos c h⟩) := by
  intro cs
  induction cs with
  | nil => rfl
  | cons c rest ih =>
    by_cases hc : distLt (distSq (pos sat1 h) (pos c h)) θ = true
    · simp [innerLoop, List.filter_cons, hc, ih]
    · simp only [Bool.not_eq_true] at hc
      simp [innerLoop, List.filter_cons, hc, ih]

theorem mem_innerLoop {pos : String → ℕ → Point} {sat1 : String} {θ : ℚ}
    {h : ℕ} {e : Encuentro} {cs : List String} :
    e ∈ innerLoop pos sat1 θ h cs ↔
      ∃ c ∈ cs, distLt (distSq (pos sat1 h) (pos c h)) θ = true ∧
        e = ⟨h, c, distSq (pos sat1 h) (pos c h), pos sat1 h, pos c h⟩ := by
  rw [innerLoop_eq_filterMap]
  simp only [List.mem_map, List.mem_filter]
  constructor
  · rintro ⟨c, ⟨hcs, hd⟩, he⟩
    exact ⟨c, hcs, hd, he.symm⟩
  · rintro ⟨c, hcs, hd, he⟩
    exact ⟨c, ⟨hcs, hd⟩, he.symm⟩

theorem mem_screenLoop {pos : String → ℕ → Point} {sat1 : String}
    {cands : List String} {θ : ℚ} {e : Encuentro} :
    ∀ {hs : List ℕ}, e ∈ screenLoop pos sat1 cands θ hs ↔
      ∃ h ∈ hs, e ∈ innerLoop pos sat1 θ h cands := by
  intro hs
  induction hs with
  | nil => simp [screenLoop]
  | cons h rest ih => simp [screenLoop, List.mem_append, ih]

theorem screenLoop_nil_cands (pos : String → ℕ → Point) (sat1 : String)
    (θ : ℚ) : ∀ hs : List ℕ, screenLoop pos sat1 [] θ hs = [] := by
  intro hs
  induction hs with
  | nil => rfl
  | cons h rest ih => simp [screenLoop, innerLoop, ih]

theorem screen_nil_cands (pos : String → ℕ → Point) (sat1 : String) (θ : ℚ)
    (days step : ℕ) : screen pos sat1 [] θ days step = [] :=
  screenLoop_nil_cands pos sat1 θ _

/-! ### Fallible screener (for the propagation-error behavior, C7)

`analyze_collision_risk` contains no `try/except` around the propagation
calls of its sampling loop (lines 591-612): a propagator exception there
propagates out of the function, discarding the events collected so far.
`screenLoopE` is the same loop with the propagator's failure made explicit
(`none` = a raised `PropagationError`), and the uncaught exception rendered
as `Except.error`. -/

/-- Inner candidate loop with a fallible propagator: a failing candidate
lookup raises (uncaught in the source). -/
def innerLoopE (posE : String → ℕ → Option Point) (sat1 : String) (θ : ℚ)
    (h : ℕ) (p1 : Point) : List String → Except String (List Encuentro)
  | [] => .ok []
  | c :: rest =>
    match posE c h with
    | none => .error "PropagationError"
    | some p2 =>
      match innerLoopE posE sat1 θ h p1 rest with
      | .error msg => .error msg
      | .ok evs =>
        .ok ((if distLt (distSq p1 p2) θ then [⟨h, c, distSq p1 p2, p1, p2⟩]
          else []) ++ evs)

/-- Outer time-sample loop with a fallible propagator (lines 592-612): the
first failing lookup aborts the whole run, losing the partial collection. -/
def screenLoopE (posE : String → ℕ → Option Point) (sat1 : String)
    (cands : List String) (θ : ℚ) : List ℕ → Except String (List Encuentro)
  | [] => .ok []
  | h :: hs =>
    match posE sat1 h with
    | none => .error "PropagationError"
    | some p1 =>
      match innerLoopE posE sat1 θ h p1 cands with
      | .error msg => .error msg
      | .ok evs =>
        match screenLoopE posE sat1 cands θ hs with
        | .error msg => .error msg
        | .ok rest => .ok (evs ++ rest)

/-- The screening pass of lines 591-612 with explicit propagation failure. -/
def screenE (posE : String → ℕ → Option Point) (sat1 : String)
    (cands : List String) (θ : ℚ) (days_ahead step_hours : ℕ) :
    Except String (List Encuentro) :=
  screenLoopE posE sat1 cands θ (pyRange (days_ahead * 24) step_hours)

/-! ### Theorems for the screener -/

/-- A propagator position function used for concrete screening runs:
the target `A` sits at `(2,5,9)`, every other object at `(3,5,9)`, 1 km away. -/
def posAB : String → ℕ → Point :=
  fun name _ => if name = "A" then (2, 5, 9) else (3, 5, 9)

theorem posAB_A (h : ℕ) : posAB "A" h = (2, 5, 9) := rfl

theorem posAB_B (h : ℕ) : posAB "B" h = (3, 5, 9) := rfl

theorem distSq_AB : distSq (2, 5, 9) (3, 5, 9) = 1 := by
  norm_num [distSq]

theorem distLt_one_ten : distLt 1 10 = true := by
  norm_num [distLt]

theorem pyRange_24_6 : pyRange (1 * 24) 6 = [0, 6, 12, 18] := by decide

/-- Concrete evaluation of the one-day, 6-hour-step screening run of `A`
against `B` under `posAB`: one event per sampled hour. -/
theorem screen_posAB_eval : screen posAB "A" ["B"] 10 1 6 =
    [⟨0, "B", 1, (2, 5, 9), (3, 5, 9)⟩, ⟨6, "B", 1, (2, 5, 9), (3, 5, 9)⟩,
     ⟨12, "B", 1, (2, 5, 9), (3, 5, 9)⟩, ⟨18, "B", 1, (2, 5, 9), (3, 5, 9)⟩] := by
  unfold screen
  rw [pyRange_24_6]
  simp [screenLoop, innerLoop, posAB_A, posAB_B, distSq_AB, distLt_one_ten]

/-- Counterexample to C5 as stated: the sampled instants stop strictly
before `horizon_days·24`; at `horizon_days = 1`, `step_hours = 6` the code
samples hours `[0, 6, 12, 18]` and never the claimed final instant
`(1·24/6)·6 = 24`, although the candidate is within threshold there. -/
theorem sampling_endpoint_counterexample :
    distLt (distSq (posAB "A" 24) (posAB "B" 24)) 10 = true ∧
    1 * 24 / 6 * 6 = 24 ∧
    24 ∉ pyRange (1 * 24) 6 ∧
    (screen posAB "A" ["B"] 10 1 6).map (fun e => e.hours) = [0, 6, 12, 18] := by
  refine ⟨?_, by decide, by decide, ?_⟩
  · rw [posAB_A, posAB_B, distSq_AB]
    exact distLt_one_ten
  · rw [screen_posAB_eval]
    rfl

/-- C5 amended: for `step_hours > 0` the screener evaluates exactly the
instants `t = now + i·step_hours` for every `i` with
`i·step_hours < horizon_days·24` (excluding the claimed endpoint
`horizon_days·24/step_hours`), and at each sampled instant emits one
ConjunctionEvent for each candidate whose Euclidean distance to the target
is strictly below the threshold. -/
theorem screen_sampling_characterization (pos : String → ℕ → Point)
    (sat1 : String) (cands : List String) (θ : ℚ) (days step : ℕ)
    (hstep : 0 < step) :
    (∀ h : ℕ, h ∈ pyRange (days * 24) step ↔ ∃ i, h = i * step ∧ h < days * 24) ∧
    (∀ e : Encuentro, e ∈ screen pos sat1 cands θ days step ↔
      ∃ h ∈ pyRange (days * 24) step, ∃ c ∈ cands,
        distLt (distSq (pos sat1 h) (pos c h)) θ = true ∧
        e = ⟨h, c, distSq (pos sat1 h) (pos c h), pos sat1 h, pos c h⟩) ∧
    (∀ h : ℕ, innerLoop pos sat1 θ h cands =
      (cands.filter (fun c => distLt (distSq (pos sat1 h) (pos c h)) θ)).map
        (fun c => ⟨h, c, distSq (pos sat1 h) (pos c h), pos sat1 h, pos c h⟩)) := by
  refine ⟨fun h => mem_pyRange hstep h, fun e => ?_, fun h => innerLoop_eq_filterMap pos sat1 θ h cands⟩
  unfold screen
  rw [mem_screenLoop]
  constructor
  · rintro ⟨h, hh, he⟩
    obtain ⟨c, hc, hd, rfl⟩ := mem_innerLoop.mp he
    exact ⟨h, hh, c, hc, hd, rfl⟩
  · rintro ⟨h, hh, c, hc, hd, rfl⟩
    exact ⟨h, hh, mem_innerLoop.mpr ⟨c, hc, hd, rfl⟩⟩

/-- Witness for C5's amended claim at `step = 6`, `days = 1`. -/
theorem screen_sampling_characterization_witness :
    0 < 6 ∧
    (6 ∈ pyRange (1 * 24) 6 ↔ ∃ i, 6 = i * 6 ∧ 6 < 1 * 24) := by
  have h := screen_sampling_characterization posAB "A" ["B"] 10 1 6 (by norm_num)
  exact ⟨by norm_num, h.1 6⟩

/-- C6: every event emitted by a screening run with threshold `θ > 0` and
horizon `h` days has distance strictly below `θ` (squared distance below
`θ²`) and a timestamp within `[now, now + h days]` (hour offset at most
`24·h`). -/
theorem screen_events_invariant (pos : String → ℕ → Point) (sat1 : String)
    (cands : List String) (θ : ℚ) (days step : ℕ) (_hθ : 0 < θ) :
    ∀ e ∈ screen pos sat1 cands θ days step,
      e.distSq < θ * θ ∧ e.hours ≤ 24 * days := by
  intro e he
  unfold screen at he
  obtain ⟨h, hh, hinner⟩ := mem_screenLoop.mp he
  obtain ⟨c, _, hd, rfl⟩ := mem_innerLoop.mp hinner
  have hlt := pyRange_lt hh
  have hd' := of_decide_eq_true hd
  refine ⟨hd'.2, ?_⟩
  show h ≤ 24 * days
  omega

/-- Witness for C6: the event at hour 0 against candidate `B` in a concrete
run with `θ = 10`, one-day horizon. -/
theorem screen_events_invariant_witness :
    (0 : ℚ) < 10 ∧
    (⟨0, "B", 1, (2, 5, 9), (3, 5, 9)⟩ : Encuentro) ∈ screen posAB "A" ["B"] 10 1 6 ∧
    ((⟨0, "B", 1, (2, 5, 9), (3, 5, 9)⟩ : Encuentro).distSq < 10 * 10 ∧
      (⟨0, "B", 1, (2, 5, 9), (3, 5, 9)⟩ : Encuentro).hours ≤ 24 * 1) := by
  have hmem : (⟨0, "B", 1, (2, 5, 9), (3, 5, 9)⟩ : Encuentro) ∈
      screen posAB "A" ["B"] 10 1 6 := by
    rw [screen_posAB_eval]
    exact List.mem_cons_self _ _
  exact ⟨by norm_num, hmem,
    screen_events_invariant posAB "A" ["B"] 10 1 6 (by norm_num) _ hmem⟩

/-- A fallible propagator that raises exactly at hour 6 and otherwise places
`A` at `(2,5,9)` and every other object at `(3,5,9)`, 1 km away. -/
def posFail6 : String → ℕ → Option Point :=
  fun name h =>
    if h = 6 then none
    else some (if name = "A" then (2, 5, 9) else (3, 5, 9))

/-- Counterexample to C7: with a propagator failing only at sampled hour 6,
the sample at hour 0 had already produced an event, yet the screening run
returns an error — the partial event collection is discarded, not returned. -/
theorem propagation_skip_counterexample :
    posFail6 "A" 6 = none ∧
    6 ∈ pyRange (1 * 24) 6 ∧
    innerLoopE posFail6 "A" 10 0 (2, 5, 9) ["B"] =
      .ok [⟨0, "B", 1, (2, 5, 9), (3, 5, 9)⟩] ∧
    screenE posFail6 "A" ["B"] 10 1 6 = .error "PropagationError" := by
  refine ⟨rfl, by decide, ?_, ?_⟩
  · simp [innerLoopE, posFail6, distSq_AB, distLt_one_ten]
  · unfold screenE
    rw [pyRange_24_6]
    simp [screenLoopE, innerLoopE, posFail6, distSq_AB, distLt_one_ten]

theorem screenLoopE_error (posE : String → ℕ → Option Point) (sat1 : String)
    (cands : List String) (θ : ℚ) :
    ∀ hs : List ℕ, (∃ h ∈ hs, posE sat1 h = none) →
      ∃ msg, screenLoopE posE sat1 cands θ hs = .error msg := by
  intro hs
  induction hs with
  | nil =>
    rintro ⟨h, hh, _⟩
    simp at hh
  | cons h hs ih =>
    rintro ⟨h0, hh0, hnone⟩
    rcases List.mem_cons.mp hh0 with rfl | hmem
    · exact ⟨"PropagationError", by simp only [screenLoopE, hnone]⟩
    · obtain ⟨msg, hmsg⟩ := ih ⟨h0, hmem, hnone⟩
      cases hp : posE sat1 h with
      | none => exact ⟨"PropagationError", by simp only [screenLoopE, hp]⟩
      | some p1 =>
        cases hi : innerLoopE posE sat1 θ h p1 cands with
        | error m => exact ⟨m, by simp only [screenLoopE, hp, hi]⟩
        | ok evs => exact ⟨msg, by simp only [screenLoopE, hp, hi, hmsg]⟩

/-- C7 amended: when the propagator fails for some sampled timestamp of a
screening run, `analyze_collision_risk`'s loop aborts the whole run with the
uncaught error rather than skipping the sample and returning the partial
event collection. -/
theorem propagation_failure_aborts (posE : String → ℕ → Option Point)
    (sat1 : String) (cands : List String) (θ : ℚ) (days step : ℕ)
    (hfail : ∃ h ∈ pyRange (days * 24) step, posE sat1 h = none) :
    ∃ msg, screenE posE sat1 cands θ days step = .error msg :=
  screenLoopE_error posE sat1 cands θ _ hfail

/-- Witness for C7's amended claim on the concrete failing propagator. -/
theorem propagation_failure_aborts_witness :
    (∃ h ∈ pyRange (1 * 24) 6, posFail6 "A" h = none) ∧
    ∃ msg, screenE posFail6 "A" ["B"] 10 1 6 = .error msg := by
  have hfail : ∃ h ∈ pyRange (1 * 24) 6, posFail6 "A" h = none :=
    ⟨6, by decide, rfl⟩
  exact ⟨hfail, propagation_failure_aborts posFail6 "A" ["B"] 10 1 6 hfail⟩

/-! ### Theorems for the screening API (C9) -/

/-- Counterexample to C9: with catalog `["A"]`, target `A` and unknown
second object `B`, `analyze_collision_risk` returns a normal RiskAssessment
over an empty candidate set (risk BAJO, 0 objects screened), not a
NotFoundError. -/
theorem unknown_second_object_counterexample :
    ("B" ∉ (["A"] : List String)) ∧
    analyze_collision_risk ["A"] (fun _ _ => (2, 5, 9)) "A" (some "B") 10 1 =
      .ok { satellite := "A", analysis_period_days := 1, threshold_km := 10,
            close_encounters := [], risk_level := "BAJO",
            total_encounters := 0, satellites_analyzed := 0 } := by
  refine ⟨by decide, ?_⟩
  have hmem : ¬ ("A" ∉ (["A"] : List String)) := by decide
  simp only [analyze_collision_risk, if_neg hmem]
  rw [if_neg (by decide : ¬ ("B" ∈ (["A"] : List String)))]
  rw [screen_nil_cands]
  rfl

/-- C9 amended: the Screening API surfaces a NotFoundError exactly for an
unknown target identifier; an unknown optional second object is silently
dropped, yielding a normal RiskAssessment over an empty candidate set
(empty event list, risk level BAJO, zero objects screened). -/
theorem not_found_only_for_target (catalog : List String)
    (pos : String → ℕ → Point) (s1 : String) (s2 : Option String)
    (θ : ℚ) (days : ℕ) :
    (s1 ∉ catalog → analyze_collision_risk catalog pos s1 s2 θ days =
      .error ("Satélite " ++ s1 ++ " no encontrado")) ∧
    (s1 ∈ catalog → ∀ s2name, s2 = some s2name → s2name ∉ catalog →
      analyze_collision_risk catalog pos s1 s2 θ days =
        .ok { satellite := s1, analysis_period_days := days, threshold_km := θ,
              close_encounters := [], risk_level := "BAJO",
              total_encounters := 0, satellites_analyzed := 0 }) := by
  constructor
  · intro h
    simp only [analyze_collision_risk, if_pos h]
  · intro h s2name hs2 hnot
    subst hs2
    simp only [analyze_collision_risk, if_neg (not_not_intro h)]
    rw [if_neg hnot]
    rw [screen_nil_cands]
    rfl

/-- Witness for C9's amended claim: unknown target `C` errors; known target
`A` with unknown second object `B` yields the BAJO assessment. -/
theorem not_found_only_for_target_witness :
    ("C" ∉ (["A"] : List String)) ∧
    analyze_collision_risk ["A"] posAB "C" none 10 1 =
      .error ("Satélite " ++ "C" ++ " no encontrado") ∧
    ("A" ∈ (["A"] : List String)) ∧ ("B" ∉ (["A"] : List String)) ∧
    analyze_collision_risk ["A"] posAB "A" (some "B") 10 1 =
      .ok { satellite := "A", analysis_period_days := 1, threshold_km := 10,
            close_encounters := [], risk_level := "BAJO",
            total_encounters := 0, satellites_analyzed := 0 } := by
  refine ⟨by decide, ?_, by decide, by decide, ?_⟩
  · exact (not_found_only_for_target ["A"] posAB "C" none 10 1).1 (by decide)
  · exact (not_found_only_for_target ["A"] posAB "A" (some "B") 10 1).2
      (by decide) "B" rfl (by decide)

/-! ### ISL decision engine (`ISLControlSystem`, lines 1539-1718)

`determine_thrust_aware_routing` reads `risk_level` and `close_encounters`
from the risk dict, derives a maneuver lead time for high/critical risk, and
dispatches to `_make_isl_decision`.  Python's `float('inf')` lead time is
`⊤ : WithTop ℚ` (the source compares it with `<` exactly as `WithTop` does).
Of the returned dict we keep every field the verified claims touch; the
wall-clock `timestamp`, the formatted `propellant_status` percentage string,
the `isl_protocol` message, and the constants `autonomous_decision` /
`chip_location` are presentation-only and omitted. -/

/-- The fields of `collision_risk_data` read at lines 1556-1557. -/
structure RiskData where
  risk_level : String
  close_encounters : List Encuentro

/-- The decision dict of `_make_isl_decision` (lines 1656-1671), restricted
to the fields the claims reference. -/
structure ISLDecision where
  command : String
  action : String
  urgency_level : String
  risk_assessment : String
  time_to_maneuver_hours : WithTop ℚ
  network_priority : String
  bandwidth_allocation : ℚ
  target_satellite : String
  maneuver_data : Option (Except ManeuverError ManeuverResult)

/-- Embedding of `_make_isl_decision(sat_local, sat_neighbor, risk_level,
time_hours, propellant, maneuver_data)` (lines 1595-1671): urgency from the
lead time, then the decision tree over urgency and propellant bands. -/
def make_isl_decision (sat_local sat_neighbor risk_level : String)
    (time_hours : WithTop ℚ) (propellant : ℚ)
    (maneuver_data : Option (Except ManeuverError ManeuverResult)) :
    ISLDecision :=
  let urgency :=
    if time_hours < ((1 : ℚ) : WithTop ℚ) then "CRÍTICO_INMEDIATO"
    else if time_hours < ((6 : ℚ) : WithTop ℚ) then "CRÍTICO_CORTO_PLAZO"
    else if time_hours < ((24 : ℚ) : WithTop ℚ) then "MODERADO"
    else "BAJO"
  -- lines 1613-1649: `command, action, network_priority, bandwidth_allocation`
  -- assigned together in each branch, rendered as one tuple per branch.
  let branch : String × String × String × ℚ :=
    if urgency = "CRÍTICO_INMEDIATO" ∨ urgency = "CRÍTICO_CORTO_PLAZO" then
      if propellant > 15/100 then
        ("THRUST_IMMINENT",
         "Preparando maniobra de evasión. Desviando tráfico crítico al satélite "
           ++ sat_neighbor,
         "HIGH_REROUTE", 2/10)
      else if propellant > 5/100 then
        ("THRUST_CONDITIONAL",
         "Maniobra condicional. Evaluando alternativas. Alertando a " ++ sat_neighbor,
         "MEDIUM_REROUTE", 1/10)
      else
        ("THRUST_IMPOSSIBLE",
         "Combustible insuficiente. Emitiendo alerta de posición. Transferencia total a "
           ++ sat_neighbor,
         "EMERGENCY_REROUTE", 5/100)
    else if urgency = "MODERADO" then
      if propellant > 25/100 then
        ("THRUST_PLANNED",
         "Maniobra planificada. Coordinando con " ++ sat_neighbor
           ++ " para redistribución de tráfico",
         "PLANNED_REROUTE", 8/10)
      else
        ("THRUST_PRESERVE",
         "Conservando combustible. Solicitando soporte de red a " ++ sat_neighbor,
         "FUEL_CONSERVATION", 6/10)
    else
      ("ROUTE_NORMAL", "Operación normal. Sin amenaza inmediata de colisión",
       "NORMAL", 1)
  { command := branch.1
    action := branch.2.1
    urgency_level := urgency
    risk_assessment := risk_level
    time_to_maneuver_hours := time_hours
    network_priority := branch.2.2.1
    bandwidth_allocation := branch.2.2.2
    target_satellite := sat_neighbor
    maneuver_data := maneuver_data }

/-- Python `min(close_encounters, key=...)` (line 1565): first element with
the minimal squared distance. -/
def nearestEncounter : Encuentro → List Encuentro → Encuentro
  | e, [] => e
  | e, f :: r => nearestEncounter (if f.distSq < e.distSq then f else e) r

/-- Embedding of `determine_thrust_aware_routing(sat_local_name,
sat_neighbor_name, collision_risk_data, propellant_level)` (lines 1539-1593).
The velocity buckets of lines 1568-1573 (`distance_km < 5` → 12000,
`< 20` → 8000, else 3000) are expressed on the squared distance (25, 400). -/
def determine_thrust_aware_routing (sat_local_name sat_neighbor_name : String)
    (collision_risk_data : RiskData) (propellant_level : ℚ) : ISLDecision :=
  let risk_level := collision_risk_data.risk_level
  let close_encounters := collision_risk_data.close_encounters
  let step : WithTop ℚ × Option (Except ManeuverError ManeuverResult) :=
    if risk_level = "ALTO" ∨ risk_level = "CRÍTICO" then
      match close_encounters with
      | [] => (⊤, none)
      | e :: es =>
        let nearest_encounter := nearestEncounter e es
        let v_rel_estimate : ℚ :=
          if nearest_encounter.distSq < 25 then 12000
          else if nearest_encounter.distSq < 400 then 8000
          else 3000
        match calculate_maneuver_time v_rel_estimate 500 100 (1/1000) 3 with
        | .ok r => (((r.tiempo.horas : ℚ) : WithTop ℚ), some (.ok r))
        | .error err => (⊤, some (.error err))
    else (⊤, none)
  make_isl_decision sat_local_name sat_neighbor_name risk_level
    step.1 propellant_level step.2

/-! #### Decision-engine lemmas -/

theorem make_time_field (sat_local sat_neighbor risk_level : String)
    (time_hours : WithTop ℚ) (propellant : ℚ)
    (maneuver_data : Option (Except ManeuverError ManeuverResult)) :
    (make_isl_decision sat_local sat_neighbor risk_level time_hours propellant
      maneuver_data).time_to_maneuver_hours = time_hours := rfl

theorem make_isl_decision_top (sat_local sat_neighbor risk_level : String)
    (propellant : ℚ)
    (maneuver_data : Option (Except ManeuverError ManeuverResult)) :
    (make_isl_decision sat_local sat_neighbor risk_level ⊤ propellant
        maneuver_data).urgency_level = "BAJO" ∧
    (make_isl_decision sat_local sat_neighbor risk_level ⊤ propellant
        maneuver_data).command = "ROUTE_NORMAL" ∧
    (make_isl_decision sat_local sat_neighbor risk_level ⊤ propellant
        maneuver_data).network_priority = "NORMAL" ∧
    (make_isl_decision sat_local sat_neighbor risk_level ⊤ propellant
        maneuver_data).bandwidth_allocation = 1 := by
  refine ⟨?_, ?_, ?_, ?_⟩ <;> simp [make_isl_decision]

theorem make_isl_decision_immediate (sat_local sat_neighbor risk_level : String)
    (propellant : ℚ)
    (maneuver_data : Option (Except ManeuverError ManeuverResult))
    (t : ℚ) (ht : t < 1) :
    (make_isl_decision sat_local sat_neighbor risk_level ((t : ℚ) : WithTop ℚ)
        propellant maneuver_data).urgency_level = "CRÍTICO_INMEDIATO" ∧
    ((make_isl_decision sat_local sat_neighbor risk_level ((t : ℚ) : WithTop ℚ)
        propellant maneuver_data).command = "THRUST_IMMINENT" ∨
     (make_isl_decision sat_local sat_neighbor risk_level ((t : ℚ) : WithTop ℚ)
        propellant maneuver_data).command = "THRUST_CONDITIONAL" ∨
     (make_isl_decision sat_local sat_neighbor risk_level ((t : ℚ) : WithTop ℚ)
        propellant maneuver_data).command = "THRUST_IMPOSSIBLE") := by
  have hlt : ((t : ℚ) : WithTop ℚ) < ((1 : ℚ) : WithTop ℚ) :=
    WithTop.coe_lt_coe.mpr ht
  constructor
  · simp only [make_isl_decision, if_pos hlt]
  · by_cases hp1 : propellant > 15/100
    · refine Or.inl ?_
      simp only [make_isl_decision, if_pos hlt]
      simp [hp1]
    · by_cases hp2 : propellant > 5/100
      · refine Or.inr (Or.inl ?_)
        simp only [make_isl_decision, if_pos hlt]
        simp [hp1, hp2]
      · refine Or.inr (Or.inr ?_)
        simp only [make_isl_decision, if_pos hlt]
        simp [hp1, hp2]

theorem determine_eq_make (sat_local sat_neighbor : String) (data : RiskData)
    (propellant : ℚ) :
    ∃ th md, determine_thrust_aware_routing sat_local sat_neighbor data
        propellant =
      make_isl_decision sat_local sat_neighbor data.risk_level th propellant md := by
  exact ⟨_, _, rfl⟩

theorem calc_maneuver_ok (v_rel R_req sigma_0 k n : ℚ)
    (h1 : ¬ v_rel ≤ 0) (h2 : ¬ R_req ≤ 0) (h3 : ¬ sigma_0 < 0)
    (h4 : ¬ v_rel - n * k ≤ 0) :
    calculate_maneuver_time v_rel R_req sigma_0 k n = .ok
      { v_rel_ms := v_rel, R_req_m := R_req, sigma_0_m := sigma_0, k_ms := k,
        factor_confianza := n,
        tiempo := ⟨(R_req + n * sigma_0) / (v_rel - n * k),
                   (R_req + n * sigma_0) / (v_rel - n * k) / 60,
                   (R_req + n * sigma_0) / (v_rel - n * k) / 60 / 60,
                   (R_req + n * sigma_0) / (v_rel - n * k) / 60 / 60 / 24⟩,
        criticidad :=
          if (R_req + n * sigma_0) / (v_rel - n * k) / 60 / 60 < 1 then "🔴 CRÍTICO"
          else if (R_req + n * sigma_0) / (v_rel - n * k) / 60 / 60 < 6 then "🟠 ALTO"
          else if (R_req + n * sigma_0) / (v_rel - n * k) / 60 / 60 < 24 then "🟡 MEDIO"
          else if (R_req + n * sigma_0) / (v_rel - n * k) / 60 / 60 / 24 < 7 then "🟢 BAJO"
          else "🔵 MÍNIMO",
        recomendacion :=
          if (R_req + n * sigma_0) / (v_rel - n * k) / 60 / 60 < 1 then
            "Maniobra inmediata requerida"
          else if (R_req + n * sigma_0) / (v_rel - n * k) / 60 / 60 < 6 then
            "Preparar maniobra en las próximas horas"
          else if (R_req + n * sigma_0) / (v_rel - n * k) / 60 / 60 < 24 then
            "Planificar maniobra para hoy"
          else if (R_req + n * sigma_0) / (v_rel - n * k) / 60 / 60 / 24 < 7 then
            "Maniobra puede planificarse con anticipación"
          else "Tiempo suficiente para análisis detallado",
        numerador := R_req + n * sigma_0,
        denominador := v_rel - n * k,
        margen_seguridad := v_rel - n * k - n * k } := by
  simp only [calculate_maneuver_time, if_neg h1, if_neg h2, if_neg h3, if_neg h4]

/-! ### Theorems for the decision engine -/

/-- The decision table of spec section 4.4, written from the spec's words:
urgency derived from the lead time (`<1h` IMMEDIATE, `<6h` SHORT_TERM,
`<24h` MODERATE, else LOW), crossed with the propellant bands; the dash
ranges are read left-open (`0.05 < p ≤ 0.15`), consistent with the strict
bounds of the adjacent rows. -/
def specDecisionTable (t p : ℚ) : String × String × ℚ :=
  let urgency :=
    if t < 1 then "IMMEDIATE"
    else if t < 6 then "SHORT_TERM"
    else if t < 24 then "MODERATE"
    else "LOW"
  if urgency = "IMMEDIATE" ∨ urgency = "SHORT_TERM" then
    if p > 15/100 then ("THRUST_IMMINENT", "HIGH_REROUTE", 2/10)
    else if p > 5/100 then ("THRUST_CONDITIONAL", "MEDIUM_REROUTE", 1/10)
    else ("THRUST_IMPOSSIBLE", "EMERGENCY_REROUTE", 5/100)
  else if urgency = "MODERATE" then
    if p > 25/100 then ("THRUST_PLANNED", "PLANNED_REROUTE", 8/10)
    else ("THRUST_PRESERVE", "FUEL_CONSERVATION", 6/10)
  else ("ROUTE_NORMAL", "NORMAL", 1)

/-- C4: for every finite lead time and propellant level in `[0, 1]` the
decision engine is total and single-valued, and its
(command, network priority, bandwidth) triple matches the spec's section 4.4
table with urgency derived from `<1h` / `<6h` / `<24h` thresholds; the
witness instantiates the spec scenario `time = 0.5 h`, `propellant = 0.03`
giving `(THRUST_IMPOSSIBLE, EMERGENCY_REROUTE, 0.05)`. -/
theorem decision_table_matches_spec (t p : ℚ)
    (sat_l sat_n risk : String)
    (md : Option (Except ManeuverError ManeuverResult))
    (h0 : 0 ≤ p) (h1 : p ≤ 1) :
    ((make_isl_decision sat_l sat_n risk ((t : ℚ) : WithTop ℚ) p md).command,
     (make_isl_decision sat_l sat_n risk ((t : ℚ) : WithTop ℚ) p md).network_priority,
     (make_isl_decision sat_l sat_n risk ((t : ℚ) : WithTop ℚ) p md).bandwidth_allocation) =
      specDecisionTable t p := by
  simp only [make_isl_decision, specDecisionTable, WithTop.coe_lt_coe]
  by_cases ht1 : t < 1
  · simp only [if_pos ht1]
    by_cases hp1 : p > 15/100
    · simp [hp1]
    · by_cases hp2 : p > 5/100 <;> simp [hp1, hp2]
  · simp only [if_neg ht1]
    by_cases ht6 : t < 6
    · simp only [if_pos ht6]
      by_cases hp1 : p > 15/100
      · simp [hp1]
      · by_cases hp2 : p > 5/100 <;> simp [hp1, hp2]
    · simp only [if_neg ht6]
      by_cases ht24 : t < 24
      · simp only [if_pos ht24]
        by_cases hp3 : p > 25/100 <;> simp [hp3]
      · simp only [if_neg ht24]
        simp

/-- Witness for C4 at the spec's concrete scenario
`time_to_maneuver_hours = 0.5`, `propellant = 0.03`. -/
theorem decision_table_matches_spec_witness :
    (0 : ℚ) ≤ 3/100 ∧ (3/100 : ℚ) ≤ 1 ∧
    ((make_isl_decision "SAT-A" "SAT-B" "CRÍTICO" (((1/2 : ℚ)) : WithTop ℚ)
        (3/100) none).command,
     (make_isl_decision "SAT-A" "SAT-B" "CRÍTICO" (((1/2 : ℚ)) : WithTop ℚ)
        (3/100) none).network_priority,
     (make_isl_decision "SAT-A" "SAT-B" "CRÍTICO" (((1/2 : ℚ)) : WithTop ℚ)
        (3/100) none).bandwidth_allocation) =
      ("THRUST_IMPOSSIBLE", "EMERGENCY_REROUTE", 5/100) := by
  refine ⟨by norm_num, by norm_num, ?_⟩
  rw [decision_table_matches_spec (1/2) (3/100) "SAT-A" "SAT-B" "CRÍTICO" none
    (by norm_num) (by norm_num)]
  norm_num [specDecisionTable]

/-- C8: the decision engine never fails: when no finite maneuver lead time
is computed (risk below ALTO/CRÍTICO or no close encounters, so the
estimation is skipped — or the estimation errors), the time-to-maneuver
field stays infinite (`⊤`), the urgency falls back to BAJO and the routing
decision is still `(ROUTE_NORMAL, NORMAL, 1.0)` rather than an error. -/
theorem decision_engine_degrades_gracefully (sat_l sat_n : String)
    (data : RiskData) (p : ℚ) :
    ((data.risk_level ≠ "ALTO" ∧ data.risk_level ≠ "CRÍTICO") ∨
        data.close_encounters = [] →
      (determine_thrust_aware_routing sat_l sat_n data p).time_to_maneuver_hours = ⊤) ∧
    ((determine_thrust_aware_routing sat_l sat_n data p).time_to_maneuver_hours = ⊤ →
      (determine_thrust_aware_routing sat_l sat_n data p).urgency_level = "BAJO" ∧
      (determine_thrust_aware_routing sat_l sat_n data p).command = "ROUTE_NORMAL" ∧
      (determine_thrust_aware_routing sat_l sat_n data p).network_priority = "NORMAL" ∧
      (determine_thrust_aware_routing sat_l sat_n data p).bandwidth_allocation = 1) := by
  constructor
  · intro hskip
    by_cases hr : data.risk_level = "ALTO" ∨ data.risk_level = "CRÍTICO"
    · have hnil : data.close_encounters = [] := by
        rcases hskip with ⟨hne1, hne2⟩ | hnil
        · rcases hr with hr | hr
          · exact absurd hr hne1
          · exact absurd hr hne2
        · exact hnil
      simp only [determine_thrust_aware_routing, if_pos hr, hnil, make_time_field]
    · simp only [determine_thrust_aware_routing, if_neg hr, make_time_field]
  · intro htop
    rw [show determine_thrust_aware_routing sat_l sat_n data p =
        make_isl_decision sat_l sat_n data.risk_level
          (determine_thrust_aware_routing sat_l sat_n data p).time_to_maneuver_hours p
          (determine_thrust_aware_routing sat_l sat_n data p).maneuver_data from rfl]
    rw [htop]
    exact make_isl_decision_top sat_l sat_n data.risk_level p _

/-- Witness for C8 on a LOW-risk input with no encounters. -/
theorem decision_engine_degrades_gracefully_witness :
    ((("BAJO" : String) ≠ "ALTO" ∧ ("BAJO" : String) ≠ "CRÍTICO") ∨
      (([] : List Encuentro) = [])) ∧
    (determine_thrust_aware_routing "SAT-1" "SAT-2" ⟨"BAJO", []⟩ (1/2)).time_to_maneuver_hours = ⊤ ∧
    (determine_thrust_aware_routing "SAT-1" "SAT-2" ⟨"BAJO", []⟩ (1/2)).urgency_level = "BAJO" ∧
    (determine_thrust_aware_routing "SAT-1" "SAT-2" ⟨"BAJO", []⟩ (1/2)).command = "ROUTE_NORMAL" ∧
    (determine_thrust_aware_routing "SAT-1" "SAT-2" ⟨"BAJO", []⟩ (1/2)).network_priority = "NORMAL" ∧
    (determine_thrust_aware_routing "SAT-1" "SAT-2" ⟨"BAJO", []⟩ (1/2)).bandwidth_allocation = 1 := by
  have h := decision_engine_degrades_gracefully "SAT-1" "SAT-2" ⟨"BAJO", []⟩ (1/2)
  have hskip : ((("BAJO" : String) ≠ "ALTO" ∧ ("BAJO" : String) ≠ "CRÍTICO") ∨
      (([] : List Encuentro) = [])) := Or.inr rfl
  have ht := h.1 hskip
  obtain ⟨hu, hc, hn, hb⟩ := h.2 ht
  exact ⟨hskip, ht, hu, hc, hn, hb⟩

theorem calc_maneuver_ok_exists (v_rel R_req sigma_0 k n : ℚ)
    (h1 : ¬ v_rel ≤ 0) (h2 : ¬ R_req ≤ 0) (h3 : ¬ sigma_0 < 0)
    (h4 : ¬ v_rel - n * k ≤ 0) :
    ∃ r, calculate_maneuver_time v_rel R_req sigma_0 k n = .ok r ∧
      r.tiempo.segundos = (R_req + n * sigma_0) / (v_rel - n * k) ∧
      r.tiempo.horas = (R_req + n * sigma_0) / (v_rel - n * k) / 60 / 60 :=
  ⟨_, calc_maneuver_ok v_rel R_req sigma_0 k n h1 h2 h3 h4, rfl, rfl⟩

/-- C10 (implicit): through `determine_thrust_aware_routing` the urgency
tier is always CRÍTICO_INMEDIATO or BAJO — never the short-term or moderate
tiers — so the commands THRUST_PLANNED and THRUST_PRESERVE are unreachable
from this entry point; whenever a lead time is computed at all, the
hard-coded velocity bucket `v ∈ {12000, 8000, 3000}` with `R_req = 500`,
`sigma_0 = 100`, `k = 0.001`, `n = 3` yields
`t = (500 + 300)/(v − 0.003) = 800/(v − 0.003)` seconds, under one second,
hence always the immediate tier. -/
theorem routing_urgency_invariant :
    (∀ (sat_l sat_n : String) (data : RiskData) (p : ℚ),
      ((determine_thrust_aware_routing sat_l sat_n data p).urgency_level =
          "CRÍTICO_INMEDIATO" ∨
       (determine_thrust_aware_routing sat_l sat_n data p).urgency_level = "BAJO") ∧
      (determine_thrust_aware_routing sat_l sat_n data p).command ≠ "THRUST_PLANNED" ∧
      (determine_thrust_aware_routing sat_l sat_n data p).command ≠ "THRUST_PRESERVE") ∧
    (∃ r, calculate_maneuver_time 12000 500 100 (1/1000) 3 = .ok r ∧
      r.tiempo.segundos = 800 / (12000 - 3/1000) ∧ r.tiempo.segundos < 1 ∧
      r.tiempo.horas < 1) ∧
    (∃ r, calculate_maneuver_time 8000 500 100 (1/1000) 3 = .ok r ∧
      r.tiempo.segundos = 800 / (8000 - 3/1000) ∧ r.tiempo.segundos < 1 ∧
      r.tiempo.horas < 1) ∧
    (∃ r, calculate_maneuver_time 3000 500 100 (1/1000) 3 = .ok r ∧
      r.tiempo.segundos = 800 / (3000 - 3/1000) ∧ r.tiempo.segundos < 1 ∧
      r.tiempo.horas < 1) := by
  refine ⟨?_, ?_, ?_, ?_⟩
  · intro sat_l sat_n data p
    by_cases hr : data.risk_level = "ALTO" ∨ data.risk_level = "CRÍTICO"
    · cases hencs : data.close_encounters with
      | nil =>
        have heq : determine_thrust_aware_routing sat_l sat_n data p =
            make_isl_decision sat_l sat_n data.risk_level ⊤ p none := by
          simp only [determine_thrust_aware_routing, if_pos hr, hencs]
        rw [heq]
        have h := make_isl_decision_top sat_l sat_n data.risk_level p none
        exact ⟨Or.inr h.1, by rw [h.2.1]; decide, by rw [h.2.1]; decide⟩
      | cons e es =>
        by_cases d1 : (nearestEncounter e es).distSq < 25
        · obtain ⟨r, hok, _, hhoras⟩ := calc_maneuver_ok_exists 12000 500 100
            (1/1000) 3 (by norm_num) (by norm_num) (by norm_num) (by norm_num)
          have heq : determine_thrust_aware_routing sat_l sat_n data p =
              make_isl_decision sat_l sat_n data.risk_level
                ((r.tiempo.horas : ℚ) : WithTop ℚ) p (some (.ok r)) := by
            simp only [determine_thrust_aware_routing, if_pos hr, hencs,
              if_pos d1, hok]
          have ht : r.tiempo.horas < 1 := by rw [hhoras]; norm_num
          rw [heq]
          have h := make_isl_decision_immediate sat_l sat_n data.risk_level p
            (some (.ok r)) r.tiempo.horas ht
          refine ⟨Or.inl h.1, ?_, ?_⟩ <;>
            rcases h.2 with hc | hc | hc <;> rw [hc] <;> decide
        · by_cases d2 : (nearestEncounter e es).distSq < 400
          · obtain ⟨r, hok, _, hhoras⟩ := calc_maneuver_ok_exists 8000 500 100
              (1/1000) 3 (by norm_num) (by norm_num) (by norm_num) (by norm_num)
            have heq : determine_thrust_aware_routing sat_l sat_n data p =
                make_isl_decision sat_l sat_n data.risk_level
                  ((r.tiempo.horas : ℚ) : WithTop ℚ) p (some (.ok r)) := by
              simp only [determine_thrust_aware_routing, if_pos hr, hencs,
                if_neg d1, if_pos d2, hok]
            have ht : r.tiempo.horas < 1 := by rw [hhoras]; norm_num
            rw [heq]
            have h := make_isl_decision_immediate sat_l sat_n data.risk_level p
              (some (.ok r)) r.tiempo.horas ht
            refine ⟨Or.inl h.1, ?_, ?_⟩ <;>
              rcases h.2 with hc | hc | hc <;> rw [hc] <;> decide
          · obtain ⟨r, hok, _, hhoras⟩ := calc_maneuver_ok_exists 3000 500 100
              (1/1000) 3 (by norm_num) (by norm_num) (by norm_num) (by norm_num)
            have heq : determine_thrust_aware_routing sat_l sat_n data p =
                make_isl_decision sat_l sat_n data.risk_level
                  ((r.tiempo.horas : ℚ) : WithTop ℚ) p (some (.ok r)) := by
              simp only [determine_thrust_aware_routing, if_pos hr, hencs,
                if_neg d1, if_neg d2, hok]
            have ht : r.tiempo.horas < 1 := by rw [hhoras]; norm_num
            rw [heq]
            have h := make_isl_decision_immediate sat_l sat_n data.risk_level p
              (some (.ok r)) r.tiempo.horas ht
            refine ⟨Or.inl h.1, ?_, ?_⟩ <;>
              rcases h.2 with hc | hc | hc <;> rw [hc] <;> decide
    · have heq : determine_thrust_aware_routing sat_l sat_n data p =
          make_isl_decision sat_l sat_n data.risk_level ⊤ p none := by
        simp only [determine_thrust_aware_routing, if_neg hr]
      rw [heq]
      have h := make_isl_decision_top sat_l sat_n data.risk_level p none
      exact ⟨Or.inr h.1, by rw [h.2.1]; decide, by rw [h.2.1]; decide⟩
  · obtain ⟨r, hok, hseg, hhoras⟩ := calc_maneuver_ok_exists 12000 500 100
      (1/1000) 3 (by norm_num) (by norm_num) (by norm_num) (by norm_num)
    refine ⟨r, hok, ?_, ?_, ?_⟩
    · rw [hseg]; norm_num
    · rw [hseg]; norm_num
    · rw [hhoras]; norm_num
  · obtain ⟨r, hok, hseg, hhoras⟩ := calc_maneuver_ok_exists 8000 500 100
      (1/1000) 3 (by norm_num) (by norm_num) (by norm_num) (by norm_num)
    refine ⟨r, hok, ?_, ?_, ?_⟩
    · rw [hseg]; norm_num
    · rw [hseg]; norm_num
    · rw [hhoras]; norm_num
  · obtain ⟨r, hok, hseg, hhoras⟩ := calc_maneuver_ok_exists 3000 500 100
      (1/1000) 3 (by norm_num) (by norm_num) (by norm_num) (by norm_num)
    refine ⟨r, hok, ?_, ?_, ?_⟩
    · rw [hseg]; norm_num
    · rw [hseg]; norm_num
    · rw [hhoras]; norm_num

/-- Witness instantiating C10's universal part at a LOW-risk input and at a
CRÍTICO input with one close encounter. -/
theorem routing_urgency_invariant_witness :
    (((determine_thrust_aware_routing "S1" "S2" ⟨"BAJO", []⟩ (1/2)).urgency_level =
        "CRÍTICO_INMEDIATO" ∨
      (determine_thrust_aware_routing "S1" "S2" ⟨"BAJO", []⟩ (1/2)).urgency_level =
        "BAJO") ∧
     (determine_thrust_aware_routing "S1" "S2" ⟨"BAJO", []⟩ (1/2)).command ≠
       "THRUST_PLANNED" ∧
     (determine_thrust_aware_routing "S1" "S2" ⟨"BAJO", []⟩ (1/2)).command ≠
       "THRUST_PRESERVE") ∧
    (((determine_thrust_aware_routing "S1" "S2"
          ⟨"CRÍTICO", [⟨0, "B", 1, (2, 5, 9), (3, 5, 9)⟩]⟩ (1/2)).urgency_level =
        "CRÍTICO_INMEDIATO" ∨
      (determine_thrust_aware_routing "S1" "S2"
          ⟨"CRÍTICO", [⟨0, "B", 1, (2, 5, 9), (3, 5, 9)⟩]⟩ (1/2)).urgency_level =
        "BAJO") ∧
     (determine_thrust_aware_routing "S1" "S2"
         ⟨"CRÍTICO", [⟨0, "B", 1, (2, 5, 9), (3, 5, 9)⟩]⟩ (1/2)).command ≠
       "THRUST_PLANNED" ∧
     (determine_thrust_aware_routing "S1" "S2"
         ⟨"CRÍTICO", [⟨0, "B", 1, (2, 5, 9), (3, 5, 9)⟩]⟩ (1/2)).command ≠
       "THRUST_PRESERVE") :=
  ⟨(routing_urgency_invariant).1 "S1" "S2" ⟨"BAJO", []⟩ (1/2),
   (routing_urgency_invariant).1 "S1" "S2"
     ⟨"CRÍTICO", [⟨0, "B", 1, (2, 5, 9), (3, 5, 9)⟩]⟩ (1/2)⟩

end SpaceApp
